import Mathlib

/-!
Verification of `scripts/build_extra.py` (WiFiProvisioner repository).

The script defines a single pre-build callback, `embed_html_callback`, which
resolves the directory of the script file, runs `python3 embed_html.py` as a
subprocess with the project root as working directory, and forwards the
subprocess's captured output to the build log.  At module level the callback is
registered once via `env.AddPreAction("buildprog", embed_html_callback)`.

We embed the callback as a pure function.  The only external effect whose
outcome the callback branches on is the subprocess launch, so we pass the
ambient world as a function from the launched call to its outcome (a completed
process result, or an exception raised at launch).  The callback's observable
behaviour is recorded in a `CallbackRun`: the list of printed lines, the
exception (if any) propagating out of the callback, and the list of subprocess
launches it performed.
-/

namespace BuildExtra

/-- A filesystem path, modelled by its list of components
(as in `pathlib.PurePath.parts`). -/
abbrev Path := List String

/-- `pathlib`'s `.parent`: drop the last path component. -/
def Path.parent (p : Path) : Path := List.dropLast p

/-- `pathlib`'s `/` operator: append one component. -/
def Path.child (p : Path) (name : String) : Path := p ++ [name]

/-- `str(...)` on a path: components joined by `/`. -/
def Path.toStr (p : Path) : String := String.intercalate "/" p

/-- The result object returned by `subprocess.run` when the process was
launched and completed: return code plus the captured text streams. -/
structure SubprocessResult where
  returncode : Int
  stdout : String
  stderr : String
deriving DecidableEq, Repr

/-- Outcome of attempting to launch the subprocess: either a completed
result, or an exception (carrying its message `str(e)`) raised at launch. -/
inductive LaunchOutcome where
  | ok (result : SubprocessResult)
  | exn (msg : String)
deriving DecidableEq, Repr

/-- The arguments the callback passes to `subprocess.run` (source lines
23-25): the argv list, `capture_output=True`, `text=True`, and the working
directory `cwd`. -/
structure SubprocessCall where
  argv : List String
  capture_output : Bool
  text : Bool
  cwd : String
deriving DecidableEq, Repr

/-- `script_dir = Path(__file__).parent` (source line 17). -/
def script_dir (file : Path) : Path := Path.parent file

/-- `project_root = script_dir.parent` (source line 18). -/
def project_root (file : Path) : Path := Path.parent (script_dir file)

/-- `embed_script = script_dir / "embed_html.py"` (source line 19). -/
def embed_script (file : Path) : Path := Path.child (script_dir file) "embed_html.py"

/-- The single subprocess launch the callback builds (source lines 23-25):
`subprocess.run(["python3", str(embed_script)], capture_output=True,
text=True, cwd=str(project_root))`. -/
def embedCall (file : Path) : SubprocessCall :=
  { argv := ["python3", Path.toStr (embed_script file)]
    capture_output := true
    text := true
    cwd := Path.toStr (project_root file) }

/-- The observable behaviour of one invocation of the callback: the lines it
printed (in order), the exception propagating out of it (`none` means it
returned normally, i.e. Python's `None`), and the subprocess launches it
performed (in order). -/
structure CallbackRun where
  printed : List String
  raised : Option String
  calls : List SubprocessCall
deriving DecidableEq, Repr

/-- Shallow embedding of `embed_html_callback(*args, **kwargs)` (source lines
12-33).  `file` is `__file__`; `world` gives the outcome of each subprocess
launch; `args` and `kwargs` are the positional and keyword arguments the build
tool passes (the Python body never reads them). -/
def embed_html_callback {α β : Type} (file : Path)
    (world : SubprocessCall → LaunchOutcome)
    (args : List α) (kwargs : List (String × β)) : CallbackRun :=
  let call := embedCall file
  match world call with
  | .ok result =>
      if result.returncode = 0 then
        { printed := ["Running HTML embedding script...", result.stdout]
          raised := none
          calls := [call] }
      else
        { printed := ["Running HTML embedding script...",
                      "Error running embed script: " ++ result.stderr]
          raised := none
          calls := [call] }
  | .exn e =>
      { printed := ["Running HTML embedding script...",
                    "Failed to run HTML embedding script: " ++ e]
        raised := none
        calls := [call] }

/-- A pre-build registration with the SCons build environment:
`env.AddPreAction(target, callback)`. -/
structure Registration where
  target : String
  callback : String
deriving DecidableEq, Repr

/-- The SCons build environment, insofar as the script touches it: the list
of registered pre-build actions. -/
structure SConsEnv where
  preActions : List Registration
deriving DecidableEq, Repr

/-- Evaluating the module body against the build environment.  The only
statement with an effect on the environment is
`env.AddPreAction("buildprog", embed_html_callback)` (source line 36). -/
def moduleEval (env : SConsEnv) : SConsEnv :=
  { env with preActions := env.preActions ++
      [{ target := "buildprog", callback := "embed_html_callback" }] }

end BuildExtra

namespace BuildExtra

/-! ## Claim theorems -/

/-- C3: for every subprocess result with exit code 0 and captured standard
output `s`, the callback prints `s` and raises no error. -/
theorem C3_success_prints_stdout {α β : Type} (file : Path)
    (world : SubprocessCall → LaunchOutcome)
    (args : List α) (kwargs : List (String × β)) (r : SubprocessResult)
    (hw : world (embedCall file) = .ok r) (h0 : r.returncode = 0) :
    (embed_html_callback file world args kwargs).printed =
      ["Running HTML embedding script...", r.stdout] ∧
    (embed_html_callback file world args kwargs).raised = none := by
  simp [embed_html_callback, hw, h0]

/-- Witness for C3 at the concrete result (returncode 0, stdout "ok"). -/
theorem C3_success_prints_stdout_witness :
    (embed_html_callback (α := Unit) (β := Unit) ["scripts", "build_extra.py"]
        (fun _ => .ok { returncode := 0, stdout := "ok", stderr := "" })
        [] []).printed =
      ["Running HTML embedding script...", "ok"] ∧
    (embed_html_callback (α := Unit) (β := Unit) ["scripts", "build_extra.py"]
        (fun _ => .ok { returncode := 0, stdout := "ok", stderr := "" })
        [] []).raised = none :=
  C3_success_prints_stdout ["scripts", "build_extra.py"]
    (fun _ => .ok { returncode := 0, stdout := "ok", stderr := "" })
    [] [] { returncode := 0, stdout := "ok", stderr := "" } rfl rfl

/-- C1 counterexample: with a failing subprocess (exit code 1, captured
stderr "bad"), no printed line equals the captured stderr "bad": the stderr
text is only printed inside the line
"Error running embed script: bad", not exactly as captured. -/
theorem C1_counterexample :
    "bad" ∉ (embed_html_callback (α := Unit) (β := Unit)
        ["scripts", "build_extra.py"]
        (fun _ => .ok { returncode := 1, stdout := "", stderr := "bad" })
        [] []).printed ∧
    (embed_html_callback (α := Unit) (β := Unit) ["scripts", "build_extra.py"]
        (fun _ => .ok { returncode := 1, stdout := "", stderr := "bad" })
        [] []).printed =
      ["Running HTML embedding script...", "Error running embed script: bad"] := by
  constructor
  · simp [embed_html_callback, embedCall]
  · rfl

/-- C1 (amended): for every subprocess result with a non-zero exit code, the
callback prints the captured standard error embedded in the line
"Error running embed script: " followed by the captured stderr, and still
returns normally without propagating any failure signal. -/
theorem C1_failure_prints_stderr {α β : Type} (file : Path)
    (world : SubprocessCall → LaunchOutcome)
    (args : List α) (kwargs : List (String × β)) (r : SubprocessResult)
    (hw : world (embedCall file) = .ok r) (hne : r.returncode ≠ 0) :
    (embed_html_callback file world args kwargs).printed =
      ["Running HTML embedding script...",
       "Error running embed script: " ++ r.stderr] ∧
    (embed_html_callback file world args kwargs).raised = none := by
  simp [embed_html_callback, hw, hne]

/-- Witness for the amended C1 at the concrete result (returncode 1,
stderr "bad"). -/
theorem C1_failure_prints_stderr_witness :
    (embed_html_callback (α := Unit) (β := Unit) ["scripts", "build_extra.py"]
        (fun _ => .ok { returncode := 1, stdout := "", stderr := "bad" })
        [] []).printed =
      ["Running HTML embedding script...", "Error running embed script: bad"] ∧
    (embed_html_callback (α := Unit) (β := Unit) ["scripts", "build_extra.py"]
        (fun _ => .ok { returncode := 1, stdout := "", stderr := "bad" })
        [] []).raised = none :=
  C1_failure_prints_stderr ["scripts", "build_extra.py"]
    (fun _ => .ok { returncode := 1, stdout := "", stderr := "bad" })
    [] [] { returncode := 1, stdout := "", stderr := "bad" } rfl (by decide)

/-- C2: if launching the subprocess raises any exception, the callback
catches it, prints the failure message
"Failed to run HTML embedding script: " followed by the exception text, and
returns normally: no exception propagates out of the callback. -/
theorem C2_launch_exception_caught {α β : Type} (file : Path)
    (world : SubprocessCall → LaunchOutcome)
    (args : List α) (kwargs : List (String × β)) (e : String)
    (hw : world (embedCall file) = .exn e) :
    (embed_html_callback file world args kwargs).printed =
      ["Running HTML embedding script...",
       "Failed to run HTML embedding script: " ++ e] ∧
    (embed_html_callback file world args kwargs).raised = none := by
  simp [embed_html_callback, hw]

/-- Witness for C2 with a concrete launch exception (interpreter missing). -/
theorem C2_launch_exception_caught_witness :
    (embed_html_callback (α := Unit) (β := Unit) ["scripts", "build_extra.py"]
        (fun _ => .exn "No such file or directory: python3") [] []).printed =
      ["Running HTML embedding script...",
       "Failed to run HTML embedding script: No such file or directory: python3"] ∧
    (embed_html_callback (α := Unit) (β := Unit) ["scripts", "build_extra.py"]
        (fun _ => .exn "No such file or directory: python3") [] []).raised = none :=
  C2_launch_exception_caught ["scripts", "build_extra.py"]
    (fun _ => .exn "No such file or directory: python3") [] []
    "No such file or directory: python3" rfl

end BuildExtra

namespace BuildExtra

/-- C4: evaluating the build script module registers the callback exactly once
with the build environment, as a "buildprog" pre-action, and performs no
other registration: the pre-action list grows by exactly that one entry. -/
theorem C4_registered_exactly_once (env : SConsEnv) :
    (moduleEval env).preActions =
      env.preActions ++ [{ target := "buildprog", callback := "embed_html_callback" }] ∧
    (moduleEval env).preActions.length = env.preActions.length + 1 := by
  refine ⟨rfl, ?_⟩
  simp [moduleEval]

/-- C5: the callback computes the script directory as the parent of its own
file path, the project root as the parent of the script directory, and
launches the subprocess with that project root as working directory. -/
theorem C5_cwd_is_project_root (file : Path) :
    script_dir file = List.dropLast file ∧
    project_root file = List.dropLast (script_dir file) ∧
    (embedCall file).cwd = Path.toStr (project_root file) ∧
    (embedCall file).cwd = Path.toStr (List.dropLast (List.dropLast file)) := by
  exact ⟨rfl, rfl, rfl, rfl⟩

/-- C6: the subprocess command invokes the external interpreter `python3` on
the script `embed_html.py` located in the same directory as the build script
(the parent directory of `__file__`). -/
theorem C6_argv_python3_embed_script (file : Path) :
    (embedCall file).argv =
      ["python3", Path.toStr (List.dropLast file ++ ["embed_html.py"])] := by
  rfl

/-- C7: each invocation of the callback launches the embedding subprocess
exactly once, whatever the outcome (success, non-zero exit code, or launch
exception): there is no retry, and the callback performs no further external
action after the launch. -/
theorem C7_exactly_one_launch {α β : Type} (file : Path)
    (world : SubprocessCall → LaunchOutcome)
    (args : List α) (kwargs : List (String × β)) :
    (embed_html_callback file world args kwargs).calls = [embedCall file] := by
  rcases hw : world (embedCall file) with r | e
  · by_cases h : r.returncode = 0 <;> simp [embed_html_callback, hw, h]
  · simp [embed_html_callback, hw]

/-- C8: in every branch (success, non-zero exit, launch exception), the first
line the callback prints is "Running HTML embedding script...". -/
theorem C8_banner_first {α β : Type} (file : Path)
    (world : SubprocessCall → LaunchOutcome)
    (args : List α) (kwargs : List (String × β)) :
    (embed_html_callback file world args kwargs).printed.head? =
      some "Running HTML embedding script..." := by
  rcases hw : world (embedCall file) with r | e
  · by_cases h : r.returncode = 0 <;> simp [embed_html_callback, hw, h]
  · simp [embed_html_callback, hw]

/-- C9: at most one captured stream is forwarded per invocation.  On exit
code zero the printed output does not depend on the captured stderr (it is
never forwarded), and on non-zero exit code the printed output does not
depend on the captured stdout. -/
theorem C9_one_stream_forwarded {α β : Type} (file : Path)
    (args : List α) (kwargs : List (String × β)) (r r' : SubprocessResult) :
    (r.returncode = 0 → r'.returncode = 0 → r.stdout = r'.stdout →
      (embed_html_callback file (fun _ => .ok r) args kwargs).printed =
      (embed_html_callback file (fun _ => .ok r') args kwargs).printed) ∧
    (r.returncode ≠ 0 → r'.returncode ≠ 0 → r.stderr = r'.stderr →
      (embed_html_callback file (fun _ => .ok r) args kwargs).printed =
      (embed_html_callback file (fun _ => .ok r') args kwargs).printed) := by
  constructor
  · intro h0 h0' hs
    simp [embed_html_callback, h0, h0', hs]
  · intro hn hn' hs
    simp [embed_html_callback, hn, hn', hs]

/-- Witness for C9: two results with exit code 0, equal stdout "ok" and
different stderr values produce identical printed output. -/
theorem C9_one_stream_forwarded_witness :
    (embed_html_callback (α := Unit) (β := Unit) ["scripts", "build_extra.py"]
        (fun _ => .ok { returncode := 0, stdout := "ok", stderr := "noise" })
        [] []).printed =
    (embed_html_callback (α := Unit) (β := Unit) ["scripts", "build_extra.py"]
        (fun _ => .ok { returncode := 0, stdout := "ok", stderr := "other" })
        [] []).printed :=
  (C9_one_stream_forwarded ["scripts", "build_extra.py"] [] []
      { returncode := 0, stdout := "ok", stderr := "noise" }
      { returncode := 0, stdout := "ok", stderr := "other" }).1 rfl rfl rfl

/-- C10: the callback's observable behaviour (printed lines, returned value,
launches) is independent of its positional and keyword arguments: any two
invocations under the same world produce identical runs. -/
theorem C10_args_ignored {α β γ δ : Type} (file : Path)
    (world : SubprocessCall → LaunchOutcome)
    (args₁ : List α) (kwargs₁ : List (String × β))
    (args₂ : List γ) (kwargs₂ : List (String × δ)) :
    embed_html_callback file world args₁ kwargs₁ =
    embed_html_callback file world args₂ kwargs₂ := by
  rfl

end BuildExtra
